import Mathlib

/-!
Shallow embedding of the checkpointed ingestion pipeline of `awc-proto`
(`backend/app/jobs/proff_backfill_details.py` and
`backend/app/jobs/proff_build_batch_ebit2024.py`), with theorems settling
the spec claims about the retrying HTTP client, the payload normalizer,
the idempotent MERGE writer, and the two walkers.
-/

set_option autoImplicit false

namespace AwcProto

/-! ## Python value model

JSON payloads and the Python values the jobs manipulate.  Numeric leaves are
modelled as integers (the payloads the jobs consume carry integer account
values; `float` coercion of fractional literals is not needed by any claim).
-/

inductive PyVal : Type where
  | vnone : PyVal
  | vbool (b : Bool) : PyVal
  | vint (n : Int) : PyVal
  | vstr (s : String) : PyVal
  | vlist (xs : List PyVal) : PyVal
  | vdict (fs : List (String × PyVal)) : PyVal

namespace PyVal

/-- Python `v is None`. -/
def isNone : PyVal → Bool
  | vnone => true
  | _ => false

/-- Python truthiness: `None`, `False`, `0`, `""`, `[]`, `{}` are falsy. -/
def truthy : PyVal → Bool
  | vnone => false
  | vbool b => b
  | vint n => n != 0
  | vstr s => s != ""
  | vlist xs => !xs.isEmpty
  | vdict fs => !fs.isEmpty

/-- Python `a or b` (value-returning, short-circuit on truthiness). -/
def pyOr (a b : PyVal) : PyVal := if a.truthy then a else b

/-- `d.get(k)` on a dict: first binding wins, default `None`.
Only called on values known to be dicts at the call sites embedded here. -/
def get : PyVal → String → PyVal
  | vdict fs, k =>
    match fs.find? (fun p => p.1 == k) with
    | some p => p.2
    | none => vnone
  | _, _ => vnone

/-- `isinstance(v, dict)` -/
def isDict : PyVal → Bool
  | vdict _ => true
  | _ => false

/-- `isinstance(v, list)` -/
def isList : PyVal → Bool
  | vlist _ => true
  | _ => false

/-- Accumulate decimal digits; `none` on the first non-digit. -/
def parseDigitsAux : List Char → Nat → Option Nat
  | [], acc => some acc
  | c :: cs, acc =>
    if c.isDigit then parseDigitsAux cs (acc * 10 + (c.toNat - 48)) else none

/-- A non-empty all-digit run parsed as a natural number. -/
def parseDigits : List Char → Option Nat
  | [] => none
  | cs => parseDigitsAux cs 0

/-- Strip leading and trailing whitespace from a character list. -/
def stripSpaces (cs : List Char) : List Char :=
  ((cs.dropWhile Char.isWhitespace).reverse.dropWhile Char.isWhitespace).reverse

/-- Python `s.strip()`. -/
def pyStrip (s : String) : String := String.mk (stripSpaces s.data)

/-- CPython numeric-string parsing (integer literals, optional sign,
surrounding whitespace), as used by `int(s)` / `float(s)`; `none` models
the `ValueError` on any other string. -/
def pyStrToInt (s : String) : Option Int :=
  match stripSpaces s.data with
  | '-' :: rest => (parseDigits rest).map (fun n => -(n : Int))
  | '+' :: rest => (parseDigits rest).map (fun n => (n : Int))
  | cs => (parseDigits cs).map (fun n => (n : Int))

/-- Python `int(v)`, returning `none` where CPython raises
(`int(None)`, `int` of a list/dict, `int` of a non-numeric string). -/
def pyInt : PyVal → Option Int
  | vint n => some n
  | vbool b => some (if b then 1 else 0)
  | vstr s => pyStrToInt s
  | _ => none

/-- Python `float(v)` restricted to integral results, returning `none`
where CPython raises; used only through `_to_decimal`, which maps any
failure to `None`. -/
def pyFloat : PyVal → Option Int
  | vint n => some n
  | vbool b => some (if b then 1 else 0)
  | vstr s => pyStrToInt s
  | _ => none

/-- Python `str(v)` for the values that reach `str(code)` in the
normalizer (never `None` there thanks to the preceding guard). -/
def pyStr : PyVal → String
  | vnone => "None"
  | vbool b => if b then "True" else "False"
  | vint n => toString n
  | vstr s => s
  | vlist _ => "[...]"
  | vdict _ => "{...}"

/-- SQL parameter binding: Python `None` becomes SQL `NULL`. -/
def toSql : PyVal → Option PyVal
  | vnone => none
  | v => some v

end PyVal

open PyVal

/-! ## Config constants (`proff_backfill_details.py` lines 29-41,
`proff_build_batch_ebit2024.py` lines 42-47) -/

def MAX_RETRIES : Nat := 6
def BACKOFF_BASE_SECONDS : ℚ := 1
def CHECKPOINT_EVERY_N : Nat := 25
def RUN_TYPE_DETAILS : String := "proff_backfill_details"
def PHASE_DETAILS : String := "details"
def PHASE_SEARCH : String := "search"

/-! ## `_to_decimal` (`proff_backfill_details.py` lines 199-205)

`try: return float(val) except: return None`; a `None` input returns `None`.
-/

def toDecimal (val : PyVal) : Option Int :=
  match val with
  | PyVal.vnone => none
  | v => v.pyFloat

/-! ## `iter_financial_items` (`proff_backfill_details.py` lines 127-196) -/

/-- One yielded row destined for `dbo.proff_financial_item`. -/
structure FinRow : Type where
  orgnr : PyVal
  fiscal_year : Int
  account_view : String
  code : String
  value : Option Int
  currency : PyVal
  unit : PyVal

/-- Pattern A body: `accounts` is a list of record dicts; non-dict records
and records without a usable code are skipped, everything else is yielded. -/
def finRowsOfList (payload : PyVal) (year_int : Int) (view_name : String) :
    List PyVal → List FinRow
  | [] => []
  | a :: rest =>
    if !a.isDict then finRowsOfList payload year_int view_name rest
    else if (pyOr (a.get "code") (a.get "accountCode")).isNone then
      finRowsOfList payload year_int view_name rest
    else
      { orgnr := pyOr (payload.get "id") (payload.get "orgnr")
        fiscal_year := year_int
        account_view := view_name
        code := (pyOr (a.get "code") (a.get "accountCode")).pyStr
        value := toDecimal (pyOr (a.get "value") (a.get "amount"))
        currency := a.get "currency"
        unit := a.get "unit" } :: finRowsOfList payload year_int view_name rest

/-- Pattern B body: `accounts` is a dict of code → value. -/
def finRowsOfDict (payload : PyVal) (year_block : PyVal) (year_int : Int)
    (view_name : String) (accounts : List (String × PyVal)) : List FinRow :=
  accounts.map
    (fun cv =>
      { orgnr := pyOr (payload.get "id") (payload.get "orgnr")
        fiscal_year := year_int
        account_view := view_name
        code := cv.1
        value := toDecimal cv.2
        currency := year_block.get "currency"
        unit := year_block.get "unit" })

/-- Body of the per-`year_block` loop. -/
def finRowsOfYearBlock (payload : PyVal) (min_year : Int) (view_name : String)
    (year_block : PyVal) : List FinRow :=
  if !year_block.isDict then []
  else
    let year := pyOr (pyOr (year_block.get "year") (year_block.get "fiscalYear"))
      (year_block.get "accountYear")
    if year.isNone then []
    else
      match year.pyInt with
      | none => []
      | some year_int =>
        if year_int < min_year then []
        else
          let accounts := pyOr (pyOr (year_block.get "accounts")
            (year_block.get "accountItems")) (year_block.get "values")
          if accounts.isNone then []
          else
            match accounts with
            | PyVal.vlist as_ => finRowsOfList payload year_int view_name as_
            | PyVal.vdict fs => finRowsOfDict payload year_block year_int view_name fs
            | _ => []

/-- Body of the per-view loop: `items = payload.get(view_key) or []`. -/
def finRowsOfView (payload : PyVal) (min_year : Int) (view_key view_name : String) :
    List FinRow :=
  let items := pyOr (payload.get view_key) (PyVal.vlist [])
  match items with
  | PyVal.vlist ys => ys.flatMap (finRowsOfYearBlock payload min_year view_name)
  | _ => []

/-- The generator `iter_financial_items(payload, min_year)`, as the list of
rows it yields, in order. -/
def iter_financial_items (payload : PyVal) (min_year : Int) : List FinRow :=
  finRowsOfView payload min_year "companyAccounts" "company" ++
  finRowsOfView payload min_year "corporateAccounts" "corporate" ++
  finRowsOfView payload min_year "annualAccounts" "annual"

/-! ## Retrying HTTP client

`ProffClient` in both jobs.  An HTTP exchange is driven by an oracle mapping
the attempt index to an outcome; the embedding counts the requests issued.
-/

/-- `Retry-After` header as seen by `_sleep`: absent (or empty, hence falsy),
present but not parseable as a float (`ValueError` branch), or parsed. -/
inductive RetryAfterHeader : Type where
  | absent : RetryAfterHeader
  | unparseable (s : String) : RetryAfterHeader
  | seconds (q : ℚ) : RetryAfterHeader
  deriving Repr, DecidableEq

/-- `ProffClient._sleep(attempt, retry_after)` (both jobs, identical code):
the duration slept before the next attempt. -/
def sleepDelay (attempt : Nat) (retry_after : RetryAfterHeader) : ℚ :=
  match retry_after with
  | RetryAfterHeader.seconds q => q
  | _ => BACKOFF_BASE_SECONDS * 2 ^ attempt

/-- An HTTP response as the clients consume it: status code, parsed
`Retry-After` header, `r.json()` result (`none` when parsing raises), and
the `r.text` excerpt used in error messages. -/
structure HttpResp : Type where
  status : Nat
  retryAfter : RetryAfterHeader
  body : Option PyVal
  text : String

/-- One attempt's outcome: a `requests.RequestException` or a response. -/
inductive HttpOutcome : Type where
  | netErr : HttpOutcome
  | resp (r : HttpResp) : HttpOutcome

/-- The statuses retried by both clients (line 94 / line 89). -/
def isTransientStatus (s : Nat) : Bool :=
  s == 429 || s == 500 || s == 502 || s == 503 || s == 504

/-- `requests.Response.ok`: true iff the status code is below 400. -/
def httpOk (s : Nat) : Bool := decide (s < 400)

/-- Detail URL built by `get_company_details` (line 82). -/
def detailsUrl (orgnr : String) : String :=
  "https://api.proff.no/api/companies/register/NO/" ++ orgnr

/-- Result of `ProffClient.get_company_details`: either the `RuntimeError`
raised on 401, or the returned `(http_status, payload, url)` triple. -/
inductive DetailsResult : Type where
  | raised (msg : String) : DetailsResult
  | ok (status : Nat) (payload : Option PyVal) (url : String) : DetailsResult

/-- The retry loop of `get_company_details` (lines 84-111), also counting the
requests issued.  `rem` is the number of loop iterations left out of
`MAX_RETRIES`; falling off the loop returns the sentinel `(599, None, url)`. -/
def getCompanyDetailsLoop (oracle : Nat → HttpOutcome) (url : String) :
    Nat → Nat → DetailsResult × Nat
  | _, 0 => (DetailsResult.ok 599 none url, 0)
  | attempt, rem + 1 =>
    match oracle attempt with
    | HttpOutcome.netErr =>
      let p := getCompanyDetailsLoop oracle url (attempt + 1) rem
      (p.1, p.2 + 1)
    | HttpOutcome.resp r =>
      if r.status == 401 then
        (DetailsResult.raised ("Proff returned 401 Invalid token. URL=" ++ url), 1)
      else if isTransientStatus r.status then
        let p := getCompanyDetailsLoop oracle url (attempt + 1) rem
        (p.1, p.2 + 1)
      else if r.status == 404 then (DetailsResult.ok 404 none url, 1)
      else if !httpOk r.status then (DetailsResult.ok r.status none url, 1)
      else (DetailsResult.ok 200 r.body url, 1)

/-- `ProffClient.get_company_details(orgnr)` with its attempt count. -/
def get_company_details (oracle : Nat → HttpOutcome) (orgnr : String) :
    DetailsResult × Nat :=
  getCompanyDetailsLoop oracle (detailsUrl orgnr) 0 MAX_RETRIES

/-- Result of the batch-builder's `ProffClient.get`: the returned response,
or the exception propagating out of the final unguarded attempt. -/
inductive BBGetResult : Type where
  | raised : BBGetResult
  | resp (r : HttpResp) : BBGetResult

/-- The retry loop of the batch-builder's `ProffClient.get` (lines 82-93):
`none` when the loop exhausts without returning. -/
def buildBatchGetLoop (oracle : Nat → HttpOutcome) :
    Nat → Nat → Option HttpResp × Nat
  | _, 0 => (none, 0)
  | attempt, rem + 1 =>
    match oracle attempt with
    | HttpOutcome.netErr =>
      let p := buildBatchGetLoop oracle (attempt + 1) rem
      (p.1, p.2 + 1)
    | HttpOutcome.resp r =>
      if isTransientStatus r.status then
        let p := buildBatchGetLoop oracle (attempt + 1) rem
        (p.1, p.2 + 1)
      else (some r, 1)

/-- The batch-builder's `ProffClient.get` (lines 81-97): after the loop, one
final attempt is issued with no exception handling and its response is
returned whatever its status ("final attempt (no swallow)"). -/
def buildBatchGet (oracle : Nat → HttpOutcome) : BBGetResult × Nat :=
  match buildBatchGetLoop oracle 0 MAX_RETRIES with
  | (some r, n) => (BBGetResult.resp r, n)
  | (none, n) =>
    match oracle MAX_RETRIES with
    | HttpOutcome.netErr => (BBGetResult.raised, n + 1)
    | HttpOutcome.resp r => (BBGetResult.resp r, n + 1)

/-! ## Idempotent writer

Each `MERGE ... WITH (HOLDLOCK)` statement is embedded as an upsert on a list
of stored rows: when a row matches the `ON` predicate it is updated by the
`WHEN MATCHED` clause, otherwise the `WHEN NOT MATCHED` row is inserted.
`SYSUTCDATETIME()` is modelled as an explicit clock value `now`.
-/

/-- SQL `COALESCE(a, b)`. -/
def sqlCoalesce {α : Type} : Option α → Option α → Option α
  | some a, _ => some a
  | none, b => b

/-- Generic table upsert: the shared shape of every `MERGE` statement. -/
def upsertBy {R : Type} (hit : R → Bool) (upd : R → R) (ins : R) (st : List R) :
    List R :=
  if st.any hit then st.map (fun r => if hit r then upd r else r) else st ++ [ins]

/-- Source row bound to `MERGE_FIN_ITEM` (after `item["orgnr"] = orgnr`). -/
structure FinItemSrc : Type where
  orgnr : String
  fiscal_year : Int
  account_view : String
  code : String
  value : Option Int
  currency : Option PyVal
  unit : Option PyVal

/-- A stored `dbo.proff_financial_item` row. -/
structure FinItemStored : Type where
  orgnr : String
  fiscal_year : Int
  account_view : String
  code : String
  value : Option Int
  currency : Option PyVal
  unit : Option PyVal
  fetched_at_utc : Nat
  source : String

/-- Natural key of a fact row. -/
def finItemKey (r : FinItemStored) : String × Int × String × String :=
  (r.orgnr, r.fiscal_year, r.account_view, r.code)

/-- `ON` predicate of `MERGE_FIN_ITEM` (lines 292-295). -/
def finItemHit (src : FinItemSrc) (r : FinItemStored) : Bool :=
  r.orgnr == src.orgnr && r.fiscal_year == src.fiscal_year &&
  r.account_view == src.account_view && r.code == src.code

/-- `WHEN MATCHED` clause of `MERGE_FIN_ITEM` (lines 296-300). -/
def finItemUpd (now : Nat) (src : FinItemSrc) (r : FinItemStored) : FinItemStored :=
  { r with
    value := src.value
    currency := sqlCoalesce src.currency r.currency
    unit := sqlCoalesce src.unit r.unit
    fetched_at_utc := now }

/-- `WHEN NOT MATCHED` clause of `MERGE_FIN_ITEM` (lines 301-302). -/
def finItemIns (now : Nat) (src : FinItemSrc) : FinItemStored :=
  { orgnr := src.orgnr, fiscal_year := src.fiscal_year
    account_view := src.account_view, code := src.code, value := src.value
    currency := src.currency, unit := src.unit
    fetched_at_utc := now, source := "proff" }

/-- `MERGE_FIN_ITEM` (lines 280-303). -/
def mergeFinItem (now : Nat) (src : FinItemSrc) (st : List FinItemStored) :
    List FinItemStored :=
  upsertBy (finItemHit src) (finItemUpd now src) (finItemIns now src) st

/-- Source row bound to `MERGE_COMPANY` (`map_company_fields` output). -/
structure CompanySrc : Type where
  orgnr : String
  name : Option PyVal
  nace : Option PyVal
  municipality : Option PyVal
  website : Option PyVal
  phone : Option PyVal
  email : Option PyVal
  street : Option PyVal
  postal_code : Option PyVal
  city : Option PyVal
  country_code : Option PyVal
  sector_code : Option PyVal
  is_public_sector : Option Int
  excluded_reason : Option PyVal

/-- A stored `dbo.company` row (the columns `MERGE_COMPANY` touches). -/
structure CompanyStored : Type where
  orgnr : String
  name : Option PyVal
  nace : Option PyVal
  municipality : Option PyVal
  website : Option PyVal
  phone : Option PyVal
  email : Option PyVal
  street : Option PyVal
  postal_code : Option PyVal
  city : Option PyVal
  country_code : Option PyVal
  sector_code : Option PyVal
  is_public_sector : Option Int
  excluded_reason : Option PyVal
  created_at : Nat
  updated_at : Nat
  last_proff_fetch_at_utc : Nat

/-- `ON` predicate of `MERGE_COMPANY` (line 252). -/
def companyHit (src : CompanySrc) (r : CompanyStored) : Bool :=
  r.orgnr == src.orgnr

/-- `WHEN MATCHED` clause of `MERGE_COMPANY` (lines 253-268): every profile
field is `COALESCE(src, tgt)`; the two timestamps are overwritten. -/
def companyUpd (now : Nat) (src : CompanySrc) (r : CompanyStored) : CompanyStored :=
  { r with
    name := sqlCoalesce src.name r.name
    nace := sqlCoalesce src.nace r.nace
    municipality := sqlCoalesce src.municipality r.municipality
    website := sqlCoalesce src.website r.website
    phone := sqlCoalesce src.phone r.phone
    email := sqlCoalesce src.email r.email
    street := sqlCoalesce src.street r.street
    postal_code := sqlCoalesce src.postal_code r.postal_code
    city := sqlCoalesce src.city r.city
    country_code := sqlCoalesce src.country_code r.country_code
    sector_code := sqlCoalesce src.sector_code r.sector_code
    is_public_sector := sqlCoalesce src.is_public_sector r.is_public_sector
    excluded_reason := sqlCoalesce src.excluded_reason r.excluded_reason
    last_proff_fetch_at_utc := now
    updated_at := now }

/-- `WHEN NOT MATCHED` clause of `MERGE_COMPANY` (lines 269-277). -/
def companyIns (now : Nat) (src : CompanySrc) : CompanyStored :=
  { orgnr := src.orgnr, name := src.name, nace := src.nace
    municipality := src.municipality, website := src.website
    phone := src.phone, email := src.email, street := src.street
    postal_code := src.postal_code, city := src.city
    country_code := src.country_code, sector_code := src.sector_code
    is_public_sector := sqlCoalesce src.is_public_sector (some 0)
    excluded_reason := src.excluded_reason
    created_at := now, updated_at := now, last_proff_fetch_at_utc := now }

/-- `MERGE_COMPANY` (lines 232-278). -/
def mergeCompany (now : Nat) (src : CompanySrc) (st : List CompanyStored) :
    List CompanyStored :=
  upsertBy (companyHit src) (companyUpd now src) (companyIns now src) st

/-- Source row bound to `MERGE_RAW_COMPANY`.  The `payload_json` column
carries the parsed payload in place of its `json.dumps` serialization. -/
structure RawSrc : Type where
  orgnr : String
  http_status : Nat
  source_url : String
  etag : Option PyVal
  payload_json : Option PyVal

/-- A stored `dbo.proff_raw_company` row. -/
structure RawStored : Type where
  orgnr : String
  http_status : Nat
  source_url : String
  etag : Option PyVal
  payload_json : Option PyVal
  fetched_at_utc : Nat

/-- `ON` predicate of `MERGE_RAW_COMPANY` (line 221). -/
def rawHit (src : RawSrc) (r : RawStored) : Bool :=
  r.orgnr == src.orgnr

/-- `WHEN MATCHED` clause of `MERGE_RAW_COMPANY` (lines 222-227): latest
fetch wins on every column. -/
def rawUpd (now : Nat) (src : RawSrc) (_r : RawStored) : RawStored :=
  { orgnr := _r.orgnr, http_status := src.http_status
    source_url := src.source_url, etag := src.etag
    payload_json := src.payload_json, fetched_at_utc := now }

/-- `WHEN NOT MATCHED` clause of `MERGE_RAW_COMPANY` (lines 228-229). -/
def rawIns (now : Nat) (src : RawSrc) : RawStored :=
  { orgnr := src.orgnr, http_status := src.http_status
    source_url := src.source_url, etag := src.etag
    payload_json := src.payload_json, fetched_at_utc := now }

/-- `MERGE_RAW_COMPANY` (lines 211-230). -/
def mergeRawCompany (now : Nat) (src : RawSrc) (st : List RawStored) :
    List RawStored :=
  upsertBy (rawHit src) (rawUpd now src) (rawIns now src) st

/-- Source row bound to `MERGE_BATCH_ITEM`. -/
structure BatchItemSrc : Type where
  batch_id : Nat
  orgnr : String
  include_reason : Option String

/-- A stored `dbo.import_batch_item` row (the columns the MERGE touches). -/
structure BatchItemStored : Type where
  batch_id : Nat
  orgnr : String
  include_reason : Option String
  deriving Repr, DecidableEq

/-- `ON` predicate of `MERGE_BATCH_ITEM` (line 236). -/
def batchItemHit (src : BatchItemSrc) (r : BatchItemStored) : Bool :=
  r.batch_id == src.batch_id && r.orgnr == src.orgnr

/-- `WHEN MATCHED` clause of `MERGE_BATCH_ITEM` (lines 237-238). -/
def batchItemUpd (src : BatchItemSrc) (r : BatchItemStored) : BatchItemStored :=
  { r with include_reason := sqlCoalesce src.include_reason r.include_reason }

/-- `WHEN NOT MATCHED` clause of `MERGE_BATCH_ITEM` (lines 239-240). -/
def batchItemIns (src : BatchItemSrc) : BatchItemStored :=
  { batch_id := src.batch_id, orgnr := src.orgnr
    include_reason := src.include_reason }

/-- `MERGE_BATCH_ITEM` (`proff_build_batch_ebit2024.py` lines 233-241). -/
def mergeBatchItem (src : BatchItemSrc) (st : List BatchItemStored) :
    List BatchItemStored :=
  upsertBy (batchItemHit src) (batchItemUpd src) (batchItemIns src) st

/-- Source row bound to `MERGE_CHECKPOINT` (identical SQL in both jobs). -/
structure CheckpointSrc : Type where
  run_id : String
  phase : String
  last_orgnr : Option String
  last_offset : Option Int
  last_cursor : Option String

/-- A stored `dbo.ingestion_checkpoint` row. -/
structure CheckpointStored : Type where
  run_id : String
  phase : String
  last_orgnr : Option String
  last_offset : Option Int
  last_cursor : Option String
  updated_at_utc : Nat
  deriving Repr, DecidableEq

/-- `ON` predicate of `MERGE_CHECKPOINT` (line 315). -/
def checkpointHit (src : CheckpointSrc) (r : CheckpointStored) : Bool :=
  r.run_id == src.run_id && r.phase == src.phase

/-- `WHEN MATCHED` clause of `MERGE_CHECKPOINT` (lines 316-320). -/
def checkpointUpd (now : Nat) (src : CheckpointSrc) (r : CheckpointStored) :
    CheckpointStored :=
  { r with
    last_orgnr := src.last_orgnr
    last_offset := src.last_offset
    last_cursor := src.last_cursor
    updated_at_utc := now }

/-- `WHEN NOT MATCHED` clause of `MERGE_CHECKPOINT` (lines 321-322). -/
def checkpointIns (now : Nat) (src : CheckpointSrc) : CheckpointStored :=
  { run_id := src.run_id, phase := src.phase, last_orgnr := src.last_orgnr
    last_offset := src.last_offset, last_cursor := src.last_cursor
    updated_at_utc := now }

/-- `MERGE_CHECKPOINT` (lines 305-323). -/
def mergeCheckpoint (now : Nat) (src : CheckpointSrc) (st : List CheckpointStored) :
    List CheckpointStored :=
  upsertBy (checkpointHit src) (checkpointUpd now src) (checkpointIns now src) st

/-- A stored `dbo.ingestion_run` row. -/
structure RunRow : Type where
  run_id : String
  run_type : String
  batch_name : Option String
  status : String
  started_at_utc : Nat
  finished_at_utc : Option Nat
  notes : Option String
  deriving Repr, DecidableEq

/-- `finish_run` / `FINISH_RUN` (`UPDATE dbo.ingestion_run ...`). -/
def finishRun (now : Nat) (run_id status : String) (notes : Option String)
    (runs : List RunRow) : List RunRow :=
  runs.map (fun r =>
    if r.run_id == run_id then
      { r with
        status := status
        finished_at_utc := some now
        notes := sqlCoalesce notes r.notes }
    else r)

/-- Natural key of a batch-item row. -/
def batchItemKey (r : BatchItemStored) : Nat × String := (r.batch_id, r.orgnr)

/-- Natural key of a company profile row. -/
def companyKey (r : CompanyStored) : String := r.orgnr

/-- Natural key of a checkpoint row. -/
def checkpointKey (r : CheckpointStored) : String × String := (r.run_id, r.phase)

theorem sqlCoalesce_self {α : Type} (a : Option α) : sqlCoalesce a a = a := by
  cases a <;> rfl

theorem sqlCoalesce_absorb {α : Type} (a b : Option α) :
    sqlCoalesce a (sqlCoalesce a b) = sqlCoalesce a b := by
  cases a <;> rfl

theorem map_id_of_hit_false {R : Type} (hit : R → Bool) (upd : R → R)
    (st : List R) (h : st.any hit = false) :
    st.map (fun r => if hit r then upd r else r) = st := by
  induction st with
  | nil => rfl
  | cons a tl ih =>
    simp only [List.any_cons, Bool.or_eq_false_iff] at h
    simp [h.1, ih h.2]

theorem upsertBy_idem {R : Type} (hit : R → Bool) (upd : R → R) (ins : R)
    (hhit : ∀ r, hit (upd r) = hit r)
    (hupd : ∀ r, hit r = true → upd (upd r) = upd r)
    (hins : hit ins = true)
    (hfix : upd ins = ins)
    (st : List R) :
    upsertBy hit upd ins (upsertBy hit upd ins st) = upsertBy hit upd ins st := by
  by_cases h : st.any hit = true
  · have e1 : upsertBy hit upd ins st
        = st.map (fun r => if hit r then upd r else r) := by
      unfold upsertBy
      rw [if_pos h]
    have hmap : (st.map (fun r => if hit r then upd r else r)).any hit = true := by
      rcases List.any_eq_true.mp h with ⟨r, hr, hhitr⟩
      refine List.any_eq_true.mpr ⟨_, List.mem_map_of_mem _ hr, ?_⟩
      rw [if_pos hhitr, hhit, hhitr]
    have e2 : upsertBy hit upd ins (st.map (fun r => if hit r then upd r else r))
        = (st.map (fun r => if hit r then upd r else r)).map
            (fun r => if hit r then upd r else r) := by
      unfold upsertBy
      rw [if_pos hmap]
    rw [e1, e2, List.map_map]
    refine List.map_congr_left (fun r _hr => ?_)
    by_cases hr : hit r = true
    · simp only [Function.comp_apply, if_pos hr]
      have hu : hit (upd r) = true := by rw [hhit, hr]
      rw [if_pos hu, hupd r hr]
    · simp only [Function.comp_apply, if_neg hr]
  · have h' : st.any hit = false := by simpa using h
    have e1 : upsertBy hit upd ins st = st ++ [ins] := by
      unfold upsertBy
      rw [if_neg h]
    have hmap : (st ++ [ins]).any hit = true := by
      simp [List.any_append, hins]
    have e2 : upsertBy hit upd ins (st ++ [ins])
        = (st ++ [ins]).map (fun r => if hit r then upd r else r) := by
      unfold upsertBy
      rw [if_pos hmap]
    rw [e1, e2, List.map_append]
    rw [map_id_of_hit_false hit upd st h']
    simp [hins, hfix]

theorem upsertBy_keysNodup {R K : Type} (key : R → K)
    (hit : R → Bool) (upd : R → R) (ins : R)
    (hhitkey : ∀ r, hit r = true ↔ key r = key ins)
    (hkey : ∀ r, key (upd r) = key r)
    (st : List R) (h : (st.map key).Nodup) :
    ((upsertBy hit upd ins st).map key).Nodup := by
  by_cases hany : st.any hit = true
  · have e1 : upsertBy hit upd ins st
        = st.map (fun r => if hit r then upd r else r) := by
      unfold upsertBy
      rw [if_pos hany]
    rw [e1, List.map_map]
    have hfe : (key ∘ fun r => if hit r then upd r else r) = key := by
      funext r
      by_cases hr : hit r = true
      · simp only [Function.comp_apply, if_pos hr, hkey]
      · simp only [Function.comp_apply, if_neg hr]
    rw [hfe]
    exact h
  · have h' : st.any hit = false := by simpa using hany
    have e1 : upsertBy hit upd ins st = st ++ [ins] := by
      unfold upsertBy
      rw [if_neg hany]
    rw [e1, List.map_append]
    have hnotin : key ins ∉ st.map key := by
      intro hmem
      rcases List.mem_map.mp hmem with ⟨r, hr, hkeq⟩
      have hhr : hit r = true := (hhitkey r).mpr hkeq
      have := List.any_eq_true.mpr ⟨r, hr, hhr⟩
      rw [h'] at this
      exact Bool.false_ne_true this
    rw [List.nodup_append]
    refine ⟨h, List.nodup_singleton _, ?_⟩
    intro a ha hb
    rw [List.map_singleton, List.mem_singleton] at hb
    subst hb
    exact hnotin ha

theorem finItemUpd_hit (now : Nat) (src : FinItemSrc) (r : FinItemStored) :
    finItemHit src (finItemUpd now src r) = finItemHit src r := rfl

theorem finItemUpd_idem (now : Nat) (src : FinItemSrc) (r : FinItemStored) :
    finItemUpd now src (finItemUpd now src r) = finItemUpd now src r := by
  simp [finItemUpd, sqlCoalesce_absorb]

theorem finItemHit_ins (now : Nat) (src : FinItemSrc) :
    finItemHit src (finItemIns now src) = true := by
  simp [finItemHit, finItemIns]

theorem finItemUpd_ins (now : Nat) (src : FinItemSrc) :
    finItemUpd now src (finItemIns now src) = finItemIns now src := by
  simp [finItemUpd, finItemIns, sqlCoalesce_self]

theorem finItemHit_key (now : Nat) (src : FinItemSrc) (r : FinItemStored) :
    finItemHit src r = true ↔ finItemKey r = finItemKey (finItemIns now src) := by
  simp [finItemHit, finItemKey, finItemIns, Prod.ext_iff, and_assoc]

theorem companyUpd_hit (now : Nat) (src : CompanySrc) (r : CompanyStored) :
    companyHit src (companyUpd now src r) = companyHit src r := rfl

theorem companyUpd_idem (now : Nat) (src : CompanySrc) (r : CompanyStored) :
    companyUpd now src (companyUpd now src r) = companyUpd now src r := by
  simp [companyUpd, sqlCoalesce_absorb]

theorem companyHit_ins (now : Nat) (src : CompanySrc) :
    companyHit src (companyIns now src) = true := by
  simp [companyHit, companyIns]

theorem companyUpd_ins (now : Nat) (src : CompanySrc) :
    companyUpd now src (companyIns now src) = companyIns now src := by
  simp [companyUpd, companyIns, sqlCoalesce_self, sqlCoalesce_absorb]

theorem companyHit_key (now : Nat) (src : CompanySrc) (r : CompanyStored) :
    companyHit src r = true ↔ companyKey r = companyKey (companyIns now src) := by
  simp [companyHit, companyKey, companyIns]

theorem batchItemUpd_hit (src : BatchItemSrc) (r : BatchItemStored) :
    batchItemHit src (batchItemUpd src r) = batchItemHit src r := rfl

theorem batchItemUpd_idem (src : BatchItemSrc) (r : BatchItemStored) :
    batchItemUpd src (batchItemUpd src r) = batchItemUpd src r := by
  simp [batchItemUpd, sqlCoalesce_absorb]

theorem batchItemHit_ins (src : BatchItemSrc) :
    batchItemHit src (batchItemIns src) = true := by
  simp [batchItemHit, batchItemIns]

theorem batchItemUpd_ins (src : BatchItemSrc) :
    batchItemUpd src (batchItemIns src) = batchItemIns src := by
  simp [batchItemUpd, batchItemIns, sqlCoalesce_self]

theorem batchItemHit_key (src : BatchItemSrc) (r : BatchItemStored) :
    batchItemHit src r = true ↔ batchItemKey r = batchItemKey (batchItemIns src) := by
  simp [batchItemHit, batchItemKey, batchItemIns, Prod.ext_iff]

theorem checkpointUpd_hit (now : Nat) (src : CheckpointSrc) (r : CheckpointStored) :
    checkpointHit src (checkpointUpd now src r) = checkpointHit src r := rfl

theorem checkpointUpd_idem (now : Nat) (src : CheckpointSrc) (r : CheckpointStored) :
    checkpointUpd now src (checkpointUpd now src r) = checkpointUpd now src r := rfl

theorem checkpointHit_ins (now : Nat) (src : CheckpointSrc) :
    checkpointHit src (checkpointIns now src) = true := by
  simp [checkpointHit, checkpointIns]

theorem checkpointUpd_ins (now : Nat) (src : CheckpointSrc) :
    checkpointUpd now src (checkpointIns now src) = checkpointIns now src := rfl

theorem checkpointHit_key (now : Nat) (src : CheckpointSrc) (r : CheckpointStored) :
    checkpointHit src r = true ↔
      checkpointKey r = checkpointKey (checkpointIns now src) := by
  simp [checkpointHit, checkpointKey, checkpointIns, Prod.ext_iff]

/-- **C1.** Writer idempotence: for each of the four business-keyed upserts
(fact by (entity, year, view, code), batch item by (batch, entity), entity
profile by ID, checkpoint by (run, phase)), executing the MERGE twice with
identical input (and the same server clock value) equals executing it once,
and the upsert never introduces a duplicate business key into a store whose
keys were distinct. -/
theorem C1_writer_idempotent :
    (∀ (now : Nat) (src : FinItemSrc) (st : List FinItemStored),
      mergeFinItem now src (mergeFinItem now src st) = mergeFinItem now src st) ∧
    (∀ (now : Nat) (src : FinItemSrc) (st : List FinItemStored),
      (st.map finItemKey).Nodup → ((mergeFinItem now src st).map finItemKey).Nodup) ∧
    (∀ (src : BatchItemSrc) (st : List BatchItemStored),
      mergeBatchItem src (mergeBatchItem src st) = mergeBatchItem src st) ∧
    (∀ (src : BatchItemSrc) (st : List BatchItemStored),
      (st.map batchItemKey).Nodup → ((mergeBatchItem src st).map batchItemKey).Nodup) ∧
    (∀ (now : Nat) (src : CompanySrc) (st : List CompanyStored),
      mergeCompany now src (mergeCompany now src st) = mergeCompany now src st) ∧
    (∀ (now : Nat) (src : CompanySrc) (st : List CompanyStored),
      (st.map companyKey).Nodup → ((mergeCompany now src st).map companyKey).Nodup) ∧
    (∀ (now : Nat) (src : CheckpointSrc) (st : List CheckpointStored),
      mergeCheckpoint now src (mergeCheckpoint now src st) = mergeCheckpoint now src st) ∧
    (∀ (now : Nat) (src : CheckpointSrc) (st : List CheckpointStored),
      (st.map checkpointKey).Nodup →
        ((mergeCheckpoint now src st).map checkpointKey).Nodup) := by
  refine ⟨?_, ?_, ?_, ?_, ?_, ?_, ?_, ?_⟩
  · intro now src st
    exact upsertBy_idem _ _ _ (finItemUpd_hit now src) (fun r _ => finItemUpd_idem now src r)
      (finItemHit_ins now src) (finItemUpd_ins now src) st
  · intro now src st h
    exact upsertBy_keysNodup finItemKey (finItemHit src) (finItemUpd now src)
      (finItemIns now src) (finItemHit_key now src) (fun _ => rfl) st h
  · intro src st
    exact upsertBy_idem _ _ _ (batchItemUpd_hit src) (fun r _ => batchItemUpd_idem src r)
      (batchItemHit_ins src) (batchItemUpd_ins src) st
  · intro src st h
    exact upsertBy_keysNodup batchItemKey (batchItemHit src) (batchItemUpd src)
      (batchItemIns src) (batchItemHit_key src) (fun _ => rfl) st h
  · intro now src st
    exact upsertBy_idem _ _ _ (companyUpd_hit now src) (fun r _ => companyUpd_idem now src r)
      (companyHit_ins now src) (companyUpd_ins now src) st
  · intro now src st h
    exact upsertBy_keysNodup companyKey (companyHit src) (companyUpd now src)
      (companyIns now src) (companyHit_key now src) (fun _ => rfl) st h
  · intro now src st
    exact upsertBy_idem _ _ _ (checkpointUpd_hit now src)
      (fun r _ => checkpointUpd_idem now src r)
      (checkpointHit_ins now src) (checkpointUpd_ins now src) st
  · intro now src st h
    exact upsertBy_keysNodup checkpointKey (checkpointHit src) (checkpointUpd now src)
      (checkpointIns now src) (checkpointHit_key now src) (fun _ => rfl) st h

/-- Witness for C1: the hypothesis-bearing conjuncts applied at concrete
inputs (singleton stores with distinct keys). -/
theorem C1_writer_idempotent_witness :
    (([] : List FinItemStored).map finItemKey).Nodup ∧
    ((mergeFinItem 7 ⟨"915", 2024, "company", "DR", some 5, none, none⟩ []).map
      finItemKey).Nodup ∧
    ((mergeBatchItem ⟨1, "915", some "r"⟩ []).map batchItemKey).Nodup ∧
    ((mergeCompany 7 ⟨"915", some (PyVal.vstr "A"), none, none, none, none, none,
      none, none, none, some (PyVal.vstr "NO"), none, some 0, none⟩ []).map
      companyKey).Nodup ∧
    ((mergeCheckpoint 7 ⟨"run1", "details", some "915", some 1, none⟩ []).map
      checkpointKey).Nodup := by
  refine ⟨List.nodup_nil, ?_, ?_, ?_, ?_⟩
  · exact C1_writer_idempotent.2.1 7 _ [] List.nodup_nil
  · exact C1_writer_idempotent.2.2.2.1 _ [] List.nodup_nil
  · exact C1_writer_idempotent.2.2.2.2.2.1 7 _ [] List.nodup_nil
  · exact C1_writer_idempotent.2.2.2.2.2.2.2 7 _ [] List.nodup_nil

/-! ## C2: field-level merge law -/

/-- `result` is `COALESCE(newV, old)` in the sense of the spec's merge law:
a null new value preserves the old, a non-null new value replaces it. -/
def coalescesTo {α : Type} (newV old result : Option α) : Prop :=
  (newV = none → result = old) ∧ ∀ v, newV = some v → result = some v

theorem upsertBy_singleton_hit {R : Type} (hit : R → Bool) (upd : R → R)
    (ins : R) (r : R) (h : hit r = true) :
    upsertBy hit upd ins [r] = [upd r] := by
  unfold upsertBy
  simp [h]

/-- **C2.** Merge law: updating an existing profile row coalesces every
profile field (null new value keeps the stored one, non-null replaces it),
while updating an existing fact row overwrites the stored `value`
unconditionally — even with null. -/
theorem C2_merge_law :
    (∀ (now : Nat) (src : CompanySrc) (r : CompanyStored),
      companyHit src r = true → mergeCompany now src [r] = [companyUpd now src r]) ∧
    (∀ (now : Nat) (src : CompanySrc) (r : CompanyStored),
      coalescesTo src.name r.name (companyUpd now src r).name ∧
      coalescesTo src.nace r.nace (companyUpd now src r).nace ∧
      coalescesTo src.municipality r.municipality (companyUpd now src r).municipality ∧
      coalescesTo src.website r.website (companyUpd now src r).website ∧
      coalescesTo src.phone r.phone (companyUpd now src r).phone ∧
      coalescesTo src.email r.email (companyUpd now src r).email ∧
      coalescesTo src.street r.street (companyUpd now src r).street ∧
      coalescesTo src.postal_code r.postal_code (companyUpd now src r).postal_code ∧
      coalescesTo src.city r.city (companyUpd now src r).city ∧
      coalescesTo src.country_code r.country_code (companyUpd now src r).country_code ∧
      coalescesTo src.sector_code r.sector_code (companyUpd now src r).sector_code ∧
      coalescesTo src.is_public_sector r.is_public_sector
        (companyUpd now src r).is_public_sector ∧
      coalescesTo src.excluded_reason r.excluded_reason
        (companyUpd now src r).excluded_reason) ∧
    (∀ (now : Nat) (src : FinItemSrc) (r : FinItemStored),
      finItemHit src r = true → mergeFinItem now src [r] = [finItemUpd now src r]) ∧
    (∀ (now : Nat) (src : FinItemSrc) (r : FinItemStored),
      (finItemUpd now src r).value = src.value) := by
  have hco : ∀ (α : Type) (a b : Option α), coalescesTo a b (sqlCoalesce a b) := by
    intro α a b
    unfold coalescesTo
    cases a with
    | none => exact ⟨fun _ => rfl, fun v hv => Option.noConfusion hv⟩
    | some x => exact ⟨fun hv => Option.noConfusion hv, fun v hv => hv⟩
  refine ⟨?_, ?_, ?_, ?_⟩
  · intro now src r h
    exact upsertBy_singleton_hit _ _ _ r h
  · intro now src r
    exact ⟨hco _ _ _, hco _ _ _, hco _ _ _, hco _ _ _, hco _ _ _, hco _ _ _,
      hco _ _ _, hco _ _ _, hco _ _ _, hco _ _ _, hco _ _ _, hco _ _ _, hco _ _ _⟩
  · intro now src r h
    exact upsertBy_singleton_hit _ _ _ r h
  · intro now src r
    rfl

/-- Witness for C2: the two hypothesis-bearing conjuncts applied to a
concrete matching stored row and source row. -/
theorem C2_merge_law_witness :
    (mergeCompany 9
        ⟨"915", some (PyVal.vstr "B"), none, none, none, none, none, none, none,
          none, some (PyVal.vstr "NO"), none, some 1, none⟩
        [⟨"915", some (PyVal.vstr "A"), none, none, none, none, none, none, none,
          none, some (PyVal.vstr "NO"), none, some 0, none, 3, 3, 3⟩]
      = [companyUpd 9
          ⟨"915", some (PyVal.vstr "B"), none, none, none, none, none, none, none,
            none, some (PyVal.vstr "NO"), none, some 1, none⟩
          ⟨"915", some (PyVal.vstr "A"), none, none, none, none, none, none, none,
            none, some (PyVal.vstr "NO"), none, some 0, none, 3, 3, 3⟩]) ∧
    (mergeFinItem 9 ⟨"915", 2024, "company", "DR", none, none, none⟩
        [⟨"915", 2024, "company", "DR", some 5, none, none, 3, "proff"⟩]
      = [finItemUpd 9 ⟨"915", 2024, "company", "DR", none, none, none⟩
          ⟨"915", 2024, "company", "DR", some 5, none, none, 3, "proff"⟩]) :=
  ⟨C2_merge_law.1 9 _ _ (by rfl), C2_merge_law.2.2.1 9 _ _ (by rfl)⟩

/-! ## C3 / C10: the detail job's resume logic (`main`, lines 454-468) -/

/-- `get_checkpoint_last_orgnr` (lines 348-359): the checkpoint row of
`(run_id, 'details')`, if any, projected to its `last_orgnr` column. -/
def getCheckpointLastOrgnr (ckpts : List CheckpointStored) (run_id : String) :
    Option String :=
  match ckpts.find? (fun c => c.run_id == run_id && c.phase == PHASE_DETAILS) with
  | some c => c.last_orgnr
  | none => none

/-- Lines 464-465: `if start_after: orgnrs = [o for o in orgnrs if o > start_after]`.
An empty `start_after` string is falsy, so it skips the filter. -/
def resumeFilter (orgnrs : List String) : Option String → List String
  | none => orgnrs
  | some s => if s = "" then orgnrs else orgnrs.filter (fun o => s < o)

/-- Python `xs[:n]` for an integer `n` (negative counts from the end). -/
def pySliceTo {α : Type} (xs : List α) (n : Int) : List α :=
  if 0 ≤ n then xs.take n.toNat else xs.take (xs.length - (-n).toNat)

/-- Lines 467-468: `if args.limit: orgnrs = orgnrs[:args.limit]`
(a zero limit is falsy and leaves the list untouched). -/
def applyLimit {α : Type} (limit : Option Int) (xs : List α) : List α :=
  match limit with
  | none => xs
  | some n => if n = 0 then xs else pySliceTo xs n

/-- Lines 458-468 of `main`: the ID list actually walked, as a function of
the checkpoint store, the fresh `run_id`, the batch list, `--resume` and
`--limit`. -/
def detailOrgnrsToProcess (ckpts : List CheckpointStored) (run_id : String)
    (orgnrs : List String) (resume : Bool) (limit : Option Int) : List String :=
  let start_after := if resume then getCheckpointLastOrgnr ckpts run_id else none
  applyLimit limit (resumeFilter orgnrs start_after)

/-- **C3.** Entity-list resume correctness: with a checkpoint at `ek` (a
non-empty entity ID), the resumed walk — before the test-limit truncation —
keeps exactly the IDs strictly greater than `ek`. -/
theorem C3_resume_exact (orgnrs : List String) (ek : String) (hek : ek ≠ "")
    (o : String) :
    o ∈ resumeFilter orgnrs (some ek) ↔ o ∈ orgnrs ∧ ek < o := by
  simp only [resumeFilter, if_neg hek]
  simp [List.mem_filter]

/-- Witness for C3 at a concrete sorted list and checkpoint. -/
theorem C3_resume_exact_witness :
    ("120" ≠ "") ∧
    (("125" ∈ resumeFilter ["101", "120", "125", "130"] (some "120")) ↔
      ("125" ∈ ["101", "120", "125", "130"] ∧ "120" < "125")) :=
  ⟨by decide, C3_resume_exact ["101", "120", "125", "130"] "120" (by decide) "125"⟩

/-- **C10.** The `--resume` flag is a no-op in the detail-fetch job: every
execution creates a fresh `run_id` (`get_or_create_run` always inserts a new
run), so the `(run_id, phase)`-scoped checkpoint lookup finds nothing and the
processed ID list is identical with and without the flag. -/
theorem C10_resume_noop (ckpts : List CheckpointStored) (run_id : String)
    (orgnrs : List String) (limit : Option Int)
    (hfresh : ∀ c ∈ ckpts, c.run_id ≠ run_id) :
    detailOrgnrsToProcess ckpts run_id orgnrs true limit =
      detailOrgnrsToProcess ckpts run_id orgnrs false limit := by
  have hnone : getCheckpointLastOrgnr ckpts run_id = none := by
    unfold getCheckpointLastOrgnr
    have hfind : ckpts.find? (fun c => c.run_id == run_id && c.phase == PHASE_DETAILS)
        = none := by
      rw [List.find?_eq_none]
      intro c hc
      simp only [Bool.and_eq_true, beq_iff_eq]
      intro h
      exact absurd h.1 (hfresh c hc)
    rw [hfind]
  simp [detailOrgnrsToProcess, hnone]

/-- Witness for C10: a checkpoint store holding rows of older runs only. -/
theorem C10_resume_noop_witness :
    (∀ c ∈ [(⟨"run7", "details", some "120", some 25, none, 5⟩ : CheckpointStored)],
      c.run_id ≠ "run8") ∧
    detailOrgnrsToProcess [⟨"run7", "details", some "120", some 25, none, 5⟩]
        "run8" ["101", "120", "125"] true (some 2) =
      detailOrgnrsToProcess [⟨"run7", "details", some "120", some 25, none, 5⟩]
        "run8" ["101", "120", "125"] false (some 2) :=
  ⟨by decide, C10_resume_noop _ "run8" _ (some 2) (by decide)⟩

/-! ## C4 / C6: retry accounting and exhaustion behavior -/

/-- Outcomes the retry loops swallow: network errors and 429/5xx. -/
def transientOutcome : HttpOutcome → Bool
  | HttpOutcome.netErr => true
  | HttpOutcome.resp r => isTransientStatus r.status

theorem getCompanyDetailsLoop_attempts (oracle : Nat → HttpOutcome) (url : String) :
    ∀ (rem attempt : Nat), (getCompanyDetailsLoop oracle url attempt rem).2 ≤ rem := by
  intro rem
  induction rem with
  | zero => intro attempt; exact Nat.le_refl 0
  | succ n ih =>
    intro attempt
    have hrec := ih (attempt + 1)
    simp only [getCompanyDetailsLoop]
    cases oracle attempt with
    | netErr => dsimp only; omega
    | resp r =>
      dsimp only
      split
      · omega
      · split
        · dsimp only; omega
        · split
          · omega
          · split <;> omega

theorem buildBatchGetLoop_attempts (oracle : Nat → HttpOutcome) :
    ∀ (rem attempt : Nat), (buildBatchGetLoop oracle attempt rem).2 ≤ rem := by
  intro rem
  induction rem with
  | zero => intro attempt; exact Nat.le_refl 0
  | succ n ih =>
    intro attempt
    have hrec := ih (attempt + 1)
    simp only [buildBatchGetLoop]
    cases oracle attempt with
    | netErr => dsimp only; omega
    | resp r =>
      dsimp only
      split
      · dsimp only; omega
      · omega

/-- The batch-builder's constant-500 oracle: every attempt is throttled. -/
def all500 : Nat → HttpOutcome :=
  fun _ => HttpOutcome.resp ⟨500, RetryAfterHeader.absent, none, "Internal Server Error"⟩

/-- **C4 counterexample.** In the batch-builder's client, a request whose
every attempt returns 500 issues `MAX_RETRIES + 1 = 7` HTTP attempts (the
retry loop's six plus the final unguarded one), exceeding the configured
maximum of 6 that the claim asserts as the bound. -/
theorem C4_counterexample :
    (buildBatchGet all500).2 = MAX_RETRIES + 1 ∧
      ¬((buildBatchGet all500).2 ≤ MAX_RETRIES) := by
  constructor
  · rfl
  · intro h
    have : (7 : Nat) ≤ 6 := h
    omega

/-- **C4 (amended).** Backoff contract: with no `Retry-After` override the
sleep before retry attempt `k` is the base delay times `2^k`, hence
non-decreasing in `k`; the detail-fetch client issues at most `MAX_RETRIES`
HTTP attempts per logical request, while the batch-builder's client issues
at most `MAX_RETRIES + 1` (its final attempt sits outside the retry loop). -/
theorem C4_backoff_amended :
    (∀ k : Nat, sleepDelay k RetryAfterHeader.absent = BACKOFF_BASE_SECONDS * 2 ^ k) ∧
    (∀ k l : Nat, k ≤ l →
      sleepDelay k RetryAfterHeader.absent ≤ sleepDelay l RetryAfterHeader.absent) ∧
    (∀ (oracle : Nat → HttpOutcome) (orgnr : String),
      (get_company_details oracle orgnr).2 ≤ MAX_RETRIES) ∧
    (∀ oracle : Nat → HttpOutcome, (buildBatchGet oracle).2 ≤ MAX_RETRIES + 1) := by
  refine ⟨fun k => rfl, ?_, ?_, ?_⟩
  · intro k l hkl
    show BACKOFF_BASE_SECONDS * 2 ^ k ≤ BACKOFF_BASE_SECONDS * 2 ^ l
    have h2 : (2 : ℚ) ^ k ≤ 2 ^ l := by
      exact pow_le_pow_right₀ (by norm_num) hkl
    calc BACKOFF_BASE_SECONDS * 2 ^ k = 2 ^ k := one_mul _
      _ ≤ 2 ^ l := h2
      _ = BACKOFF_BASE_SECONDS * 2 ^ l := (one_mul _).symm
  · intro oracle orgnr
    exact getCompanyDetailsLoop_attempts oracle (detailsUrl orgnr) MAX_RETRIES 0
  · intro oracle
    unfold buildBatchGet
    have h := buildBatchGetLoop_attempts oracle MAX_RETRIES 0
    rcases hl : buildBatchGetLoop oracle 0 MAX_RETRIES with ⟨res, n⟩
    rw [hl] at h
    cases res with
    | some r => simpa using Nat.le_succ_of_le h
    | none =>
      cases oracle MAX_RETRIES <;> simpa using Nat.succ_le_succ h

/-- Witness for C4: the monotonicity conjunct at attempts 1 ≤ 3. -/
theorem C4_backoff_amended_witness :
    (1 : Nat) ≤ 3 ∧
      sleepDelay 1 RetryAfterHeader.absent ≤ sleepDelay 3 RetryAfterHeader.absent :=
  ⟨by decide, C4_backoff_amended.2.1 1 3 (by decide)⟩

theorem getCompanyDetailsLoop_exhaust (oracle : Nat → HttpOutcome) (url : String) :
    ∀ (rem attempt : Nat),
      (∀ k, attempt ≤ k → k < attempt + rem → transientOutcome (oracle k) = true) →
      getCompanyDetailsLoop oracle url attempt rem
        = (DetailsResult.ok 599 none url, rem) := by
  intro rem
  induction rem with
  | zero => intro attempt _; rfl
  | succ n ih =>
    intro attempt h
    have h0 : transientOutcome (oracle attempt) = true :=
      h attempt (Nat.le_refl _) (by omega)
    have hrec := ih (attempt + 1) (fun k hk1 hk2 => h k (by omega) (by omega))
    simp only [getCompanyDetailsLoop]
    cases horacle : oracle attempt with
    | netErr => dsimp only; rw [hrec]
    | resp r =>
      rw [horacle] at h0
      simp only [transientOutcome] at h0
      have h401 : (r.status == 401) = false := by
        rcases eq_or_ne r.status 401 with he | he
        · rw [he] at h0; simp [isTransientStatus] at h0
        · simp [he]
      dsimp only
      rw [if_neg (by simp [h401]), if_pos h0, hrec]

theorem buildBatchGetLoop_exhaust (oracle : Nat → HttpOutcome) :
    ∀ (rem attempt : Nat),
      (∀ k, attempt ≤ k → k < attempt + rem → transientOutcome (oracle k) = true) →
      buildBatchGetLoop oracle attempt rem = (none, rem) := by
  intro rem
  induction rem with
  | zero => intro attempt _; rfl
  | succ n ih =>
    intro attempt h
    have h0 : transientOutcome (oracle attempt) = true :=
      h attempt (Nat.le_refl _) (by omega)
    have hrec := ih (attempt + 1) (fun k hk1 hk2 => h k (by omega) (by omega))
    simp only [buildBatchGetLoop]
    cases horacle : oracle attempt with
    | netErr => dsimp only; rw [hrec]
    | resp r =>
      rw [horacle] at h0
      simp only [transientOutcome] at h0
      dsimp only
      rw [if_pos h0, hrec]

/-- The all-network-error oracle. -/
def allNetErr : Nat → HttpOutcome := fun _ => HttpOutcome.netErr

/-- **C6 counterexample.** In the batch-builder's client, a logical request
whose every attempt fails with a network error raises the final attempt's
exception to the caller instead of returning a sentinel outcome. -/
theorem C6_counterexample :
    buildBatchGet allNetErr = (BBGetResult.raised, MAX_RETRIES + 1) := rfl

/-- **C6 (amended).** Sentinel on exhaustion: the detail-fetch client
returns the `(599, None, url)` sentinel after `MAX_RETRIES` transient
failures instead of raising; the batch-builder's client instead issues one
final unguarded attempt and passes its outcome through — returning the raw
response whatever its status, or raising its network error. -/
theorem C6_sentinel_amended :
    (∀ (oracle : Nat → HttpOutcome) (orgnr : String),
      (∀ k, k < MAX_RETRIES → transientOutcome (oracle k) = true) →
      get_company_details oracle orgnr
        = (DetailsResult.ok 599 none (detailsUrl orgnr), MAX_RETRIES)) ∧
    (∀ (oracle : Nat → HttpOutcome) (r : HttpResp),
      (∀ k, k < MAX_RETRIES → transientOutcome (oracle k) = true) →
      oracle MAX_RETRIES = HttpOutcome.resp r →
      buildBatchGet oracle = (BBGetResult.resp r, MAX_RETRIES + 1)) ∧
    (∀ oracle : Nat → HttpOutcome,
      (∀ k, k < MAX_RETRIES → transientOutcome (oracle k) = true) →
      oracle MAX_RETRIES = HttpOutcome.netErr →
      buildBatchGet oracle = (BBGetResult.raised, MAX_RETRIES + 1)) := by
  refine ⟨?_, ?_, ?_⟩
  · intro oracle orgnr h
    exact getCompanyDetailsLoop_exhaust oracle (detailsUrl orgnr) MAX_RETRIES 0
      (fun k hk1 hk2 => h k (by omega))
  · intro oracle r h hfin
    unfold buildBatchGet
    rw [buildBatchGetLoop_exhaust oracle MAX_RETRIES 0 (fun k hk1 hk2 => h k (by omega))]
    rw [hfin]
  · intro oracle h hfin
    unfold buildBatchGet
    rw [buildBatchGetLoop_exhaust oracle MAX_RETRIES 0 (fun k hk1 hk2 => h k (by omega))]
    rw [hfin]

/-- Witness for C6: the sentinel conjunct at the all-500 oracle. -/
theorem C6_sentinel_amended_witness :
    (∀ k, k < MAX_RETRIES → transientOutcome (all500 k) = true) ∧
      get_company_details all500 "915"
        = (DetailsResult.ok 599 none (detailsUrl "915"), MAX_RETRIES) :=
  ⟨fun _ _ => rfl, C6_sentinel_amended.1 all500 "915" (fun _ _ => rfl)⟩

/-! ## `map_company_fields` (`proff_backfill_details.py` lines 396-435) -/

/-- `d.get(k, default)` on a dict. -/
def pyGetD (p : PyVal) (k : String) (d : PyVal) : PyVal :=
  match p with
  | PyVal.vdict fs =>
    match fs.find? (fun q => q.1 == k) with
    | some q => q.2
    | none => d
  | _ => d

/-- `.get` on a value that may not be a dict: `none` models the
`AttributeError` CPython raises on a non-dict receiver. -/
def tryGet (p : PyVal) (k : String) : Option PyVal :=
  match p with
  | PyVal.vdict _ => some (p.get k)
  | _ => none

/-- `map_company_fields(orgnr, payload)`: `none` models an `AttributeError`
escaping (possible when `payload["company"]` or `payload["address"]` is a
truthy non-dict). -/
def mapCompanyFields (orgnr : String) (payload : PyVal) : Option CompanySrc := do
  let nameAB := pyOr (payload.get "name") (payload.get "companyName")
  let name ←
    if nameAB.truthy then some nameAB
    else tryGet (pyGetD payload "company" (PyVal.vdict [])) "name"
  let nace := pyOr (pyOr (payload.get "nace") (payload.get "naceCode"))
    (payload.get "industryCode")
  let municipality := pyOr (payload.get "municipality") (payload.get "kommune")
  let website := pyOr (payload.get "website") (payload.get "homepage")
  let phone := pyOr (payload.get "phone") (payload.get "telephone")
  let email := payload.get "email"
  let addr := pyOr (payload.get "address") (PyVal.vdict [])
  let street ← do
    let s1 ← tryGet addr "street"
    if s1.truthy then some s1 else tryGet addr "streetAddress"
  let postal_code ← do
    let s1 ← tryGet addr "postalCode"
    if s1.truthy then some s1 else tryGet addr "zip"
  let city ← do
    let s1 ← tryGet addr "city"
    if s1.truthy then some s1 else tryGet addr "postOffice"
  let sector_code := pyOr (pyOr (payload.get "sectorCode") (payload.get "sector"))
    PyVal.vnone
  let is_public_sector := (pyGetD payload "isPublicSector" (PyVal.vbool false)).truthy
  some
    { orgnr := orgnr
      name := name.toSql
      nace := nace.toSql
      municipality := municipality.toSql
      website := website.toSql
      phone := phone.toSql
      email := email.toSql
      street := street.toSql
      postal_code := postal_code.toSql
      city := city.toSql
      country_code := some (PyVal.vstr "NO")
      sector_code := sector_code.toSql
      is_public_sector := some (if is_public_sector then 1 else 0)
      excluded_reason :=
        if is_public_sector then some (PyVal.vstr "public_sector") else none }

/-- `item["orgnr"] = orgnr  # enforce` (line 503) and SQL parameter binding
of one normalizer row. -/
def finRowToSrc (orgnr : String) (row : FinRow) : FinItemSrc :=
  { orgnr := orgnr, fiscal_year := row.fiscal_year
    account_view := row.account_view, code := row.code, value := row.value
    currency := row.currency.toSql, unit := row.unit.toSql }

/-! ## Entity-list walker (`proff_backfill_details.py` `main`, lines 475-530)

The walk is driven by a per-entity oracle `orgnr → attempt → outcome`.  Each
entity's raw/profile/fact writes share one transaction; an exception inside
it rolls the whole transaction back.
-/

/-- The stores the detail job writes. -/
structure DetailsDB : Type where
  runs : List RunRow
  ckpts : List CheckpointStored
  raw : List RawStored
  companies : List CompanyStored
  finItems : List FinItemStored

/-- Walk accumulator: stores plus the `processed` counter. -/
structure WalkAcc : Type where
  db : DetailsDB
  processed : Nat

/-- One iteration of the `for orgnr in orgnrs` loop (lines 476-521). -/
def stepEntity (oracle : String → Nat → HttpOutcome) (min_year : Int) (now : Nat)
    (run_id : String) (acc : WalkAcc) (orgnr : String) : Except String WalkAcc :=
  match get_company_details (oracle orgnr) orgnr with
  | (DetailsResult.raised msg, _) => Except.error msg
  | (DetailsResult.ok status payload url, _) =>
    let db := acc.db
    let raw' := mergeRawCompany now
      { orgnr := orgnr, http_status := status, source_url := url
        etag := none, payload_json := payload } db.raw
    let afterTx : Except String DetailsDB :=
      match payload with
      | some (PyVal.vdict fs) =>
        if status == 200 then
          match mapCompanyFields orgnr (PyVal.vdict fs) with
          | none => Except.error "AttributeError"
          | some crow =>
            let companies' := mergeCompany now crow db.companies
            let finItems' := (iter_financial_items (PyVal.vdict fs) min_year).foldl
              (fun st row => mergeFinItem now (finRowToSrc orgnr row) st) db.finItems
            Except.ok { db with raw := raw', companies := companies', finItems := finItems' }
        else Except.ok { db with raw := raw' }
      | _ => Except.ok { db with raw := raw' }
    match afterTx with
    | Except.error e => Except.error e
    | Except.ok db' =>
      let processed := acc.processed + 1
      let db'' :=
        if processed % CHECKPOINT_EVERY_N == 0 then
          { db' with
            ckpts := mergeCheckpoint now
              { run_id := run_id, phase := PHASE_DETAILS, last_orgnr := some orgnr
                last_offset := some (processed : Int), last_cursor := none } db'.ckpts }
        else db'
      Except.ok { db := db'', processed := processed }

/-- The `for` loop over the ID list; an exception stops the walk and leaves
the state as of the last completed entity. -/
def walkEntities (oracle : String → Nat → HttpOutcome) (min_year : Int) (now : Nat)
    (run_id : String) : List String → WalkAcc → WalkAcc × Option String
  | [], acc => (acc, none)
  | o :: rest, acc =>
    match stepEntity oracle min_year now run_id acc o with
    | Except.error e => (acc, some e)
    | Except.ok acc' => walkEntities oracle min_year now run_id rest acc'

/-- The `try/except` body of `main` (lines 475-530): walk, then finish the
run as `succeeded`, or mark it `failed` with the error text and re-raise
(the returned flag). -/
def runDetails (oracle : String → Nat → HttpOutcome) (min_year : Int) (now : Nat)
    (run_id : String) (orgnrs : List String) (db0 : DetailsDB) :
    DetailsDB × Nat × Bool :=
  match walkEntities oracle min_year now run_id orgnrs ⟨db0, 0⟩ with
  | (acc, none) =>
    ({ acc.db with
        runs := finishRun now run_id "succeeded"
          (some ("Processed " ++ toString acc.processed ++ " companies.")) acc.db.runs },
      acc.processed, false)
  | (acc, some e) =>
    ({ acc.db with
        runs := finishRun now run_id "failed" (some ("Error: " ++ e)) acc.db.runs },
      acc.processed, true)

/-! ## Cursor walker (`proff_build_batch_ebit2024.py` `main`, lines 388-457)

Helpers (`normalize_orgnr`, `extract_orgnrs_from_search_response`,
`get_next_href`) and the page loop.  `.get` on a non-dict receiver is
modelled as yielding `None` (the claims never exercise the `AttributeError`
path there), and `urljoin` is modelled for path-absolute hrefs.
-/

/-- `normalize_orgnr(x)` (lines 116-120). -/
def normalizeOrgnr (x : PyVal) : Option String :=
  match x with
  | PyVal.vnone => none
  | v =>
    let s := String.mk (v.pyStr.data.filter Char.isDigit)
    if s.length == 9 then some s else none

/-- Lines 127-132: the first of the candidate keys holding a list. -/
def pickCandidates (data : PyVal) : List PyVal :=
  match ["companies", "results", "items", "hits", "entities"].findSome?
      (fun k => match data.get k with
        | PyVal.vlist xs => some xs
        | _ => none) with
  | some xs => xs
  | none => []

/-- Lines 134-141: the first orgnr-bearing key of one candidate record. -/
def extractOrgnr (c : PyVal) : Option String :=
  if !c.isDict then none
  else ["organisationNumber", "organizationNumber", "orgnr", "id", "businessId"].findSome?
    (fun k => normalizeOrgnr (c.get k))

/-- Lines 144-151: de-duplicate preserving first occurrence. -/
def dedupKeepOrder : List String → List String → List String
  | [], _ => []
  | x :: rest, seen =>
    if seen.contains x then dedupKeepOrder rest seen
    else x :: dedupKeepOrder rest (x :: seen)

/-- `extract_orgnrs_from_search_response(data)` (lines 122-151). -/
def extract_orgnrs_from_search_response (data : PyVal) : List String :=
  dedupKeepOrder ((pickCandidates data).filterMap extractOrgnr) []

/-- `get_next_href(data)` (lines 153-162). -/
def getNextHref (data : PyVal) : Option String :=
  let pagination := pyOr (data.get "pagination") (PyVal.vdict [])
  let nxt := pyOr (pagination.get "next") (PyVal.vdict [])
  match nxt.get "href" with
  | PyVal.vstr s => if pyStrip s ≠ "" then some s else none
  | _ => none

/-- Lines 431-432: absolute hrefs pass through, others join the base URL. -/
def resolveHref (href : String) : String :=
  if href.startsWith "http" then href else "https://api.proff.no" ++ href

/-- The stores the batch-builder job writes inside its page loop. -/
structure SearchDB : Type where
  runs : List RunRow
  ckpts : List CheckpointStored
  items : List BatchItemStored

/-- Cursor-walk accumulator: stores, page counter, running insert total,
and the last orgnr seen (carried across pages, line 386 / 404-405). -/
structure CursorAcc : Type where
  db : SearchDB
  page : Nat
  inserted : Nat
  lastOrgnr : Option String

/-- How the `while next_url` loop ended. -/
inductive CursorResult : Type where
  | done : CursorResult
  | failedPage (e : String) : CursorResult
  | outOfFuel : CursorResult

/-- The `while next_url:` loop (lines 389-438), driven by a URL-and-attempt
oracle.  `fuel` bounds the modelled iteration count only. -/
def cursorLoop (oracle : String → Nat → HttpOutcome) (now : Nat)
    (run_id : String) (batch_id : Nat) (reason : String) (limitPages : Option Int) :
    Nat → Option String → CursorAcc → CursorAcc × CursorResult
  | _, none, acc => (acc, CursorResult.done)
  | 0, some _, acc => (acc, CursorResult.outOfFuel)
  | fuel + 1, some url, acc =>
    let page' := acc.page + 1
    if (match limitPages with
        | some lp => lp != 0 && decide ((page' : Int) > lp)
        | none => false) then
      ({ acc with page := page' }, CursorResult.done)
    else
      match buildBatchGet (oracle url) with
      | (BBGetResult.raised, _) =>
        ({ acc with page := page' }, CursorResult.failedPage "RequestException")
      | (BBGetResult.resp r, _) =>
        if !httpOk r.status then
          ({ acc with page := page' },
            CursorResult.failedPage
              ("Proff search failed: " ++ toString r.status ++ " " ++ r.text ++
                "\nRequest URL: " ++ url))
        else
          match r.body with
          | none => ({ acc with page := page' }, CursorResult.failedPage "JSONDecodeError")
          | some data =>
            let orgnrs := extract_orgnrs_from_search_response data
            let lastOrgnr' := if orgnrs.isEmpty then acc.lastOrgnr else orgnrs.getLast?
            let items' := orgnrs.foldl
              (fun st o => mergeBatchItem
                { batch_id := batch_id, orgnr := o, include_reason := some reason } st)
              acc.db.items
            let cursor := getNextHref data
            let ckpts' := mergeCheckpoint now
              { run_id := run_id, phase := PHASE_SEARCH, last_orgnr := lastOrgnr'
                last_offset := some (page' : Int), last_cursor := cursor } acc.db.ckpts
            let inserted' := acc.inserted + orgnrs.length
            let nextUrl := (getNextHref data).map resolveHref
            cursorLoop oracle now run_id batch_id reason limitPages fuel nextUrl
              { db := { acc.db with items := items', ckpts := ckpts' }
                page := page', inserted := inserted', lastOrgnr := lastOrgnr' }

/-- The `try/except` body of the batch-builder's `main` (lines 388-457):
loop, then finish the run as `succeeded`, or mark it `failed` with the error
text and re-raise (the returned flag). -/
def runSearch (oracle : String → Nat → HttpOutcome) (now : Nat)
    (run_id : String) (batch_id : Nat) (batch_name reason : String)
    (limitPages : Option Int) (fuel : Nat) (startUrl : String) (db0 : SearchDB) :
    SearchDB × Nat × Bool :=
  match cursorLoop oracle now run_id batch_id reason limitPages fuel
      (some startUrl) ⟨db0, 0, 0, none⟩ with
  | (acc, CursorResult.done) =>
    ({ acc.db with
        runs := finishRun now run_id "succeeded"
          (some ("Inserted/updated ~" ++ toString acc.inserted ++
            " orgnrs into batch '" ++ batch_name ++ "'. Pages: " ++
            toString acc.page)) acc.db.runs },
      acc.inserted, false)
  | (acc, CursorResult.failedPage e) =>
    ({ acc.db with
        runs := finishRun now run_id "failed" (some ("Error: " ++ e)) acc.db.runs },
      acc.inserted, true)
  | (acc, CursorResult.outOfFuel) => (acc.db, acc.inserted, false)

/-! ## Walker lemmas -/

/-- Every raw-store MERGE leaves a row carrying the source's entity ID and
HTTP status. -/
theorem mergeRaw_mem (now : Nat) (src : RawSrc) (st : List RawStored) :
    ∃ rr ∈ mergeRawCompany now src st,
      rr.orgnr = src.orgnr ∧ rr.http_status = src.http_status := by
  unfold mergeRawCompany upsertBy
  by_cases h : st.any (rawHit src) = true
  · rw [if_pos h]
    rcases List.any_eq_true.mp h with ⟨r, hr, hhit⟩
    refine ⟨if rawHit src r then rawUpd now src r else r,
      List.mem_map_of_mem _ hr, ?_⟩
    rw [if_pos hhit]
    have horg : r.orgnr = src.orgnr := by
      have := hhit
      unfold rawHit at this
      exact eq_of_beq this
    exact ⟨horg, rfl⟩
  · rw [if_neg h]
    exact ⟨rawIns now src, List.mem_append_right _ (List.mem_singleton.mpr rfl),
      rfl, rfl⟩

/-- A successful entity step bumps `processed` by one and never touches the
run table. -/
theorem stepEntity_ok_shape (oracle : String → Nat → HttpOutcome) (min_year : Int)
    (now : Nat) (run_id : String) (acc : WalkAcc) (o : String) (acc' : WalkAcc)
    (h : stepEntity oracle min_year now run_id acc o = Except.ok acc') :
    acc'.processed = acc.processed + 1 ∧ acc'.db.runs = acc.db.runs := by
  unfold stepEntity at h
  rcases hg : get_company_details (oracle o) o with ⟨res, n⟩
  rw [hg] at h
  cases res with
  | raised msg => exact absurd h (by simp)
  | ok status payload url =>
    dsimp only at h
    split at h
    · exact Except.noConfusion h
    · rename_i db' heq
      injection h with h2
      subst h2
      have hruns : db'.runs = acc.db.runs := by
        repeat split at heq
        all_goals
          first
            | exact Except.noConfusion heq
            | (injection heq with h3
               subst h3
               rfl)
      refine ⟨rfl, ?_⟩
      show (if ((acc.processed + 1) % CHECKPOINT_EVERY_N == 0) = true then _ else _ :
        DetailsDB).runs = acc.db.runs
      split
      · exact hruns
      · exact hruns

/-- A walk whose every step succeeds visits every ID: it ends without an
exception, having processed the whole list, with the run table untouched. -/
theorem walkEntities_ok (oracle : String → Nat → HttpOutcome) (min_year : Int)
    (now : Nat) (run_id : String) :
    ∀ (orgnrs : List String) (acc : WalkAcc),
      (∀ o ∈ orgnrs, ∀ a, ∃ a', stepEntity oracle min_year now run_id a o = Except.ok a') →
      ∃ acc', walkEntities oracle min_year now run_id orgnrs acc = (acc', none) ∧
        acc'.processed = acc.processed + orgnrs.length ∧
        acc'.db.runs = acc.db.runs := by
  intro orgnrs
  induction orgnrs with
  | nil => intro acc _; exact ⟨acc, rfl, by simp, rfl⟩
  | cons o rest ih =>
    intro acc h
    rcases h o (List.mem_cons_self o rest) acc with ⟨a1, ha1⟩
    rcases stepEntity_ok_shape oracle min_year now run_id acc o a1 ha1 with ⟨hp1, hr1⟩
    rcases ih a1 (fun o' ho' a => h o' (List.mem_cons_of_mem _ ho') a) with
      ⟨acc', hw, hp, hr⟩
    refine ⟨acc', ?_, ?_, ?_⟩
    · unfold walkEntities
      rw [ha1]
      exact hw
    · rw [hp, hp1, List.length_cons]
      omega
    · rw [hr, hr1]

theorem getCompanyDetailsLoop_first401 (oracle : Nat → HttpOutcome) (url : String)
    (attempt rem : Nat) (r : HttpResp)
    (h0 : oracle attempt = HttpOutcome.resp r) (hs : r.status = 401) :
    getCompanyDetailsLoop oracle url attempt (rem + 1)
      = (DetailsResult.raised ("Proff returned 401 Invalid token. URL=" ++ url), 1) := by
  simp [getCompanyDetailsLoop, h0, hs]

theorem getCompanyDetailsLoop_first404 (oracle : Nat → HttpOutcome) (url : String)
    (attempt rem : Nat) (r : HttpResp)
    (h0 : oracle attempt = HttpOutcome.resp r) (hs : r.status = 404) :
    getCompanyDetailsLoop oracle url attempt (rem + 1)
      = (DetailsResult.ok 404 none url, 1) := by
  simp [getCompanyDetailsLoop, h0, hs, isTransientStatus]

theorem getCompanyDetailsLoop_first403 (oracle : Nat → HttpOutcome) (url : String)
    (attempt rem : Nat) (r : HttpResp)
    (h0 : oracle attempt = HttpOutcome.resp r) (hs : r.status = 403) :
    getCompanyDetailsLoop oracle url attempt (rem + 1)
      = (DetailsResult.ok 403 none url, 1) := by
  simp [getCompanyDetailsLoop, h0, hs, isTransientStatus, httpOk]

/-- A raised fetch on the first ID of the walk marks the run `failed` with
the error text, re-raises, and leaves every store untouched. -/
theorem runDetails_abort (oracle : String → Nat → HttpOutcome) (min_year : Int)
    (now : Nat) (run_id o : String) (rest : List String) (db0 : DetailsDB)
    (msg : String) (n : Nat)
    (h : get_company_details (oracle o) o = (DetailsResult.raised msg, n)) :
    runDetails oracle min_year now run_id (o :: rest) db0
      = ({ db0 with
            runs := finishRun now run_id "failed" (some ("Error: " ++ msg)) db0.runs },
          0, true) := by
  unfold runDetails walkEntities stepEntity
  rw [h]

/-- A fetch that comes back with a bodyless `(status, None, url)` triple —
the 599 sentinel included — still yields a successful step that records the
status in the raw-response store. -/
theorem stepEntity_records (oracle : String → Nat → HttpOutcome) (min_year : Int)
    (now : Nat) (run_id : String) (acc : WalkAcc) (o : String)
    (status : Nat) (url : String) (n : Nat)
    (h : get_company_details (oracle o) o = (DetailsResult.ok status none url, n)) :
    ∃ acc', stepEntity oracle min_year now run_id acc o = Except.ok acc' ∧
      ∃ rr ∈ acc'.db.raw, rr.orgnr = o ∧ rr.http_status = status := by
  unfold stepEntity
  rw [h]
  dsimp only
  refine ⟨_, rfl, ?_⟩
  split
  · exact mergeRaw_mem now _ acc.db.raw
  · exact mergeRaw_mem now _ acc.db.raw

/-- A 403 response with no retryable condition. -/
def resp403 : HttpOutcome :=
  HttpOutcome.resp ⟨403, RetryAfterHeader.absent, none, "Forbidden"⟩

/-- A 200 response with an empty JSON object body. -/
def resp200Empty : HttpOutcome :=
  HttpOutcome.resp ⟨200, RetryAfterHeader.absent, some (PyVal.vdict []), "{}"⟩

/-- Oracle: entity `101` answers 403, every other entity answers 200. -/
def oracle403 : String → Nat → HttpOutcome :=
  fun o _ => if o == "101" then resp403 else resp200Empty

/-- A details DB holding one `running` run row. -/
def dbDetails0 : DetailsDB :=
  ⟨[⟨"run1", RUN_TYPE_DETAILS, some "b1", "running", 0, none, none⟩], [], [], [], []⟩

/-- **C5 counterexample.** A 403 response does not abort the run: with the
first entity answering 403 and the second 200, the walk processes both IDs,
records the 403 in the raw store, and the run finishes `succeeded`. -/
theorem C5_counterexample :
    (runDetails oracle403 2020 1 "run1" ["101", "102"] dbDetails0).2.2 = false ∧
    (runDetails oracle403 2020 1 "run1" ["101", "102"] dbDetails0).2.1 = 2 ∧
    ((runDetails oracle403 2020 1 "run1" ["101", "102"] dbDetails0).1.runs.map
      (fun r => r.status)) = ["succeeded"] ∧
    ((runDetails oracle403 2020 1 "run1" ["101", "102"] dbDetails0).1.raw.map
      (fun rr => (rr.orgnr, rr.http_status))) = [("101", 403), ("102", 200)] :=
  ⟨rfl, rfl, rfl, rfl⟩

/-- **C5 (amended).** Auth/NotFound taxonomy: a 401 raises immediately (one
attempt, never retried) and aborts the enclosing run, which is marked
`failed` with the error text and re-raised; a 404 is returned as the valid
empty result `(404, None, url)` after one attempt; a 403 is likewise never
retried but is returned to the caller as a `(403, None, url)` result — it
does not abort the run. -/
theorem C5_auth_notfound_amended :
    (∀ (oracle : Nat → HttpOutcome) (orgnr : String) (r : HttpResp),
      oracle 0 = HttpOutcome.resp r → r.status = 401 →
      get_company_details oracle orgnr
        = (DetailsResult.raised
            ("Proff returned 401 Invalid token. URL=" ++ detailsUrl orgnr), 1)) ∧
    (∀ (oracle : String → Nat → HttpOutcome) (min_year : Int) (now : Nat)
        (run_id o : String) (rest : List String) (db0 : DetailsDB)
        (msg : String) (n : Nat),
      get_company_details (oracle o) o = (DetailsResult.raised msg, n) →
      runDetails oracle min_year now run_id (o :: rest) db0
        = ({ db0 with
              runs := finishRun now run_id "failed"
                (some ("Error: " ++ msg)) db0.runs },
            0, true)) ∧
    (∀ (oracle : Nat → HttpOutcome) (orgnr : String) (r : HttpResp),
      oracle 0 = HttpOutcome.resp r → r.status = 404 →
      get_company_details oracle orgnr
        = (DetailsResult.ok 404 none (detailsUrl orgnr), 1)) ∧
    (∀ (oracle : Nat → HttpOutcome) (orgnr : String) (r : HttpResp),
      oracle 0 = HttpOutcome.resp r → r.status = 403 →
      get_company_details oracle orgnr
        = (DetailsResult.ok 403 none (detailsUrl orgnr), 1)) := by
  refine ⟨?_, ?_, ?_, ?_⟩
  · intro oracle orgnr r h0 hs
    show getCompanyDetailsLoop oracle (detailsUrl orgnr) 0 (5 + 1) = _
    exact getCompanyDetailsLoop_first401 oracle _ 0 5 r h0 hs
  · intro oracle min_year now run_id o rest db0 msg n h
    exact runDetails_abort oracle min_year now run_id o rest db0 msg n h
  · intro oracle orgnr r h0 hs
    show getCompanyDetailsLoop oracle (detailsUrl orgnr) 0 (5 + 1) = _
    exact getCompanyDetailsLoop_first404 oracle _ 0 5 r h0 hs
  · intro oracle orgnr r h0 hs
    show getCompanyDetailsLoop oracle (detailsUrl orgnr) 0 (5 + 1) = _
    exact getCompanyDetailsLoop_first403 oracle _ 0 5 r h0 hs

/-- The all-401 oracle. -/
def oracle401 : Nat → HttpOutcome :=
  fun _ => HttpOutcome.resp ⟨401, RetryAfterHeader.absent, none, "Unauthorized"⟩

/-- Witness for C5: the 401 conjunct at a concrete oracle. -/
theorem C5_auth_notfound_amended_witness :
    (oracle401 0 = HttpOutcome.resp
      ⟨401, RetryAfterHeader.absent, none, "Unauthorized"⟩) ∧
    get_company_details oracle401 "915"
      = (DetailsResult.raised
          ("Proff returned 401 Invalid token. URL=" ++ detailsUrl "915"), 1) :=
  ⟨rfl, C5_auth_notfound_amended.1 oracle401 "915" _ rfl rfl⟩

/-- **C8.** Failure-propagation asymmetry.  Cursor mode: a page whose fetch
comes back non-OK makes the run fail with the error text and re-raises,
inserting nothing.  Entity-list mode: a per-entity failure (the bodyless
status the client returns after retries) yields a successful step that
persists the failing status to the raw store, the walk moves on to the next
ID, and a walk whose steps all succeed processes the full list and marks the
run `succeeded`. -/
theorem C8_failure_asymmetry :
    (∀ (oracle : String → Nat → HttpOutcome) (now : Nat) (run_id : String)
        (batch_id : Nat) (batch_name reason : String) (fuel : Nat) (url : String)
        (db0 : SearchDB) (r : HttpResp) (n : Nat),
      buildBatchGet (oracle url) = (BBGetResult.resp r, n) →
      httpOk r.status = false →
      runSearch oracle now run_id batch_id batch_name reason none (fuel + 1) url db0
        = ({ db0 with
              runs := finishRun now run_id "failed"
                (some ("Error: " ++ ("Proff search failed: " ++ toString r.status ++
                  " " ++ r.text ++ "\nRequest URL: " ++ url))) db0.runs },
            0, true)) ∧
    (∀ (oracle : String → Nat → HttpOutcome) (min_year : Int) (now : Nat)
        (run_id : String) (acc : WalkAcc) (o : String) (url : String) (n : Nat),
      get_company_details (oracle o) o = (DetailsResult.ok 599 none url, n) →
      ∃ acc', stepEntity oracle min_year now run_id acc o = Except.ok acc' ∧
        ∃ rr ∈ acc'.db.raw, rr.orgnr = o ∧ rr.http_status = 599) ∧
    (∀ (oracle : String → Nat → HttpOutcome) (min_year : Int) (now : Nat)
        (run_id o : String) (rest : List String) (acc acc' : WalkAcc),
      stepEntity oracle min_year now run_id acc o = Except.ok acc' →
      walkEntities oracle min_year now run_id (o :: rest) acc
        = walkEntities oracle min_year now run_id rest acc') ∧
    (∀ (oracle : String → Nat → HttpOutcome) (min_year : Int) (now : Nat)
        (run_id : String) (orgnrs : List String) (db0 : DetailsDB),
      (∀ o ∈ orgnrs, ∀ a, ∃ a',
        stepEntity oracle min_year now run_id a o = Except.ok a') →
      (runDetails oracle min_year now run_id orgnrs db0).2.2 = false ∧
      (runDetails oracle min_year now run_id orgnrs db0).2.1 = orgnrs.length ∧
      (runDetails oracle min_year now run_id orgnrs db0).1.runs
        = finishRun now run_id "succeeded"
            (some ("Processed " ++ toString orgnrs.length ++ " companies."))
            db0.runs) := by
  refine ⟨?_, ?_, ?_, ?_⟩
  · intro oracle now run_id batch_id batch_name reason fuel url db0 r n hget hok
    unfold runSearch cursorLoop
    dsimp only
    rw [hget]
    simp only [Bool.false_eq_true, if_false]
    rw [hok]
    rfl
  · intro oracle min_year now run_id acc o url n h
    exact stepEntity_records oracle min_year now run_id acc o 599 url n h
  · intro oracle min_year now run_id o rest acc acc' h
    conv_lhs => unfold walkEntities
    rw [h]
  · intro oracle min_year now run_id orgnrs db0 h
    rcases walkEntities_ok oracle min_year now run_id orgnrs ⟨db0, 0⟩ h with
      ⟨acc', hw, hp, hr⟩
    unfold runDetails
    rw [hw]
    simp only [Nat.zero_add] at hp
    refine ⟨rfl, hp, ?_⟩
    dsimp only
    rw [hr, hp]

/-- Cursor-mode oracle answering 400 on every request. -/
def oracle400 : String → Nat → HttpOutcome :=
  fun _ _ => HttpOutcome.resp ⟨400, RetryAfterHeader.absent, none, "Bad Request"⟩

/-- A search DB holding one `running` run row. -/
def dbSearch0 : SearchDB :=
  ⟨[⟨"run2", "proff_build_batch_ebit2024", some "b1", "running", 0, none, none⟩], [], []⟩

/-- Witness for C8: the cursor-fatal conjunct at a concrete failing page and
the entity-list conjunct at a concrete exhausted entity. -/
theorem C8_failure_asymmetry_witness :
    (buildBatchGet (oracle400 "u") = (BBGetResult.resp
      ⟨400, RetryAfterHeader.absent, none, "Bad Request"⟩, 1)) ∧
    (runSearch oracle400 1 "run2" 7 "b1" "DR>=50000 (2024)" none 1 "u" dbSearch0
      = ({ dbSearch0 with
            runs := finishRun 1 "run2" "failed"
              (some ("Error: " ++ ("Proff search failed: " ++ toString 400 ++
                " " ++ "Bad Request" ++ "\nRequest URL: " ++ "u"))) dbSearch0.runs },
          0, true)) ∧
    (∃ acc', stepEntity (fun _ => allNetErr) 2020 1 "run1" ⟨dbDetails0, 0⟩ "101"
        = Except.ok acc' ∧
      ∃ rr ∈ acc'.db.raw, rr.orgnr = "101" ∧ rr.http_status = 599) := by
  refine ⟨rfl, ?_, ?_⟩
  · exact C8_failure_asymmetry.1 oracle400 1 "run2" 7 "b1" "DR>=50000 (2024)" 0 "u"
      dbSearch0 ⟨400, RetryAfterHeader.absent, none, "Bad Request"⟩ 1 rfl rfl
  · exact C8_failure_asymmetry.2.1 (fun _ => allNetErr) 2020 1 "run1" ⟨dbDetails0, 0⟩
      "101" (detailsUrl "101") MAX_RETRIES rfl

/-! ## C9: Scenario A, concretely -/

/-- Thirty sorted entity IDs; item #27 is `"127"`. -/
def orgnrs30 : List String :=
  ["101", "102", "103", "104", "105", "106", "107", "108", "109", "110",
   "111", "112", "113", "114", "115", "116", "117", "118", "119", "120",
   "121", "122", "123", "124", "125", "126", "127", "128", "129", "130"]

/-- A well-formed detail payload with one 2024 fact under the company view. -/
def okPayload : PyVal :=
  PyVal.vdict
    [("name", PyVal.vstr "ACME"),
     ("companyAccounts", PyVal.vlist
       [PyVal.vdict
         [("year", PyVal.vint 2024),
          ("accounts", PyVal.vlist
            [PyVal.vdict [("code", PyVal.vstr "DR"), ("value", PyVal.vint 100)]])]])]

def resp200Payload : HttpOutcome :=
  HttpOutcome.resp ⟨200, RetryAfterHeader.absent, some okPayload, ""⟩

def resp500 : HttpOutcome :=
  HttpOutcome.resp ⟨500, RetryAfterHeader.absent, none, "Internal Server Error"⟩

/-- Item #27 returns 500 on its first attempt and succeeds on the retry;
every other item succeeds immediately. -/
def scenarioAOracle : String → Nat → HttpOutcome :=
  fun o k => if o == "127" && k == 0 then resp500 else resp200Payload

/-- The Scenario A run: cadence `CHECKPOINT_EVERY_N = 25` over 30 IDs. -/
def scenarioA : DetailsDB × Nat × Bool :=
  runDetails scenarioAOracle 2020 1 "run1" orgnrs30 dbDetails0

/-- **C9 counterexample.** No end-of-run checkpoint update happens: after the
walk the checkpoint store holds exactly the one row written after item 25
(`last_orgnr = "125"`, `last_offset = 25`), not a row refreshed at run end
with the final ID `"130"` / offset 30. -/
theorem C9_counterexample :
    scenarioA.1.ckpts
      = [{ run_id := "run1", phase := "details", last_orgnr := some "125"
           last_offset := some 25, last_cursor := none, updated_at_utc := 1 }] := rfl

/-- **C9 (amended).** Scenario A: all 30 IDs are processed (the 500 on item
#27 is absorbed by the client's retry), the checkpoint is written exactly
once — after item 25 — while run end only flips the run row to `succeeded`,
and no duplicate fact keys exist (in particular item #27 contributes exactly
one fact row). -/
theorem C9_scenarioA_amended :
    scenarioA.2.1 = 30 ∧
    scenarioA.2.2 = false ∧
    scenarioA.1.runs.map (fun r => r.status) = ["succeeded"] ∧
    scenarioA.1.ckpts
      = [{ run_id := "run1", phase := "details", last_orgnr := some "125"
           last_offset := some 25, last_cursor := none, updated_at_utc := 1 }] ∧
    (scenarioA.1.finItems.filter (fun r => r.orgnr == "127")).length = 1 ∧
    (scenarioA.1.finItems.map finItemKey).Nodup :=
  ⟨rfl, rfl, rfl, rfl, rfl, by decide⟩

/-! ## C7: normalizer drop rules -/

theorem finRowsOfList_year (p : PyVal) (y : Int) (v : String) :
    ∀ (as_ : List PyVal) (row : FinRow),
      row ∈ finRowsOfList p y v as_ → row.fiscal_year = y := by
  intro as_
  induction as_ with
  | nil => intro row h; cases h
  | cons a tl ih =>
    intro row h
    simp only [finRowsOfList] at h
    split at h
    · exact ih row h
    · split at h
      · exact ih row h
      · rcases List.mem_cons.mp h with hrow | hrow
        · rw [hrow]
        · exact ih row hrow

theorem finRowsOfDict_year (p yb : PyVal) (y : Int) (v : String)
    (fs : List (String × PyVal)) (row : FinRow)
    (h : row ∈ finRowsOfDict p yb y v fs) : row.fiscal_year = y := by
  rcases List.mem_map.mp h with ⟨cv, _, hcv⟩
  rw [← hcv]

theorem finRowsOfYearBlock_min (p : PyVal) (m : Int) (v : String) (yb : PyVal)
    (row : FinRow) (h : row ∈ finRowsOfYearBlock p m v yb) :
    m ≤ row.fiscal_year := by
  unfold finRowsOfYearBlock at h
  split at h
  · cases h
  · dsimp only at h
    split at h
    · cases h
    · split at h
      · cases h
      · rename_i year_int heq
        split at h
        · cases h
        · rename_i hlt
          split at h
          · cases h
          · split at h
            · rw [finRowsOfList_year p year_int v _ row h]; omega
            · rw [finRowsOfDict_year p yb year_int v _ row h]; omega
            · cases h

theorem finRowsOfView_min (p : PyVal) (m : Int) (vk v : String) (row : FinRow)
    (h : row ∈ finRowsOfView p m vk v) : m ≤ row.fiscal_year := by
  unfold finRowsOfView at h
  dsimp only at h
  split at h
  · rcases List.mem_flatMap.mp h with ⟨yb, _, hyb⟩
    exact finRowsOfYearBlock_min p m v yb row hyb
  · cases h

theorem finRowsOfList_length (p : PyVal) (y : Int) (v : String) :
    ∀ as_ : List PyVal,
      (finRowsOfList p y v as_).length
        = (as_.filter (fun a =>
            a.isDict && !(pyOr (a.get "code") (a.get "accountCode")).isNone)).length := by
  intro as_
  induction as_ with
  | nil => rfl
  | cons a tl ih =>
    simp only [finRowsOfList, List.filter_cons]
    by_cases hd : a.isDict = true
    · rw [if_neg (by simp [hd])]
      by_cases hc : (pyOr (a.get "code") (a.get "accountCode")).isNone = true
      · rw [if_pos hc, if_neg (by simp [hd, hc])]
        exact ih
      · rw [if_neg hc, if_pos (by simp [hd, hc])]
        simp only [List.length_cons]
        rw [ih]
    · rw [if_pos (by simp [hd]), if_neg (by simp [hd])]
      exact ih

theorem finRowsOfDict_length (p yb : PyVal) (y : Int) (v : String)
    (fs : List (String × PyVal)) :
    (finRowsOfDict p yb y v fs).length = fs.length := by
  unfold finRowsOfDict
  exact List.length_map _ _

/-- A payload whose single pattern-A record carries the non-coercible value
`"abc"`. -/
def badValPayload : PyVal :=
  PyVal.vdict
    [("companyAccounts", PyVal.vlist
      [PyVal.vdict
        [("year", PyVal.vint 2024),
         ("accounts", PyVal.vlist
           [PyVal.vdict [("code", PyVal.vstr "DR"), ("value", PyVal.vstr "abc")]])]])]

/-- **C7 counterexample.** A record whose value fails numeric coercion is
not dropped: it is yielded with a null value (and nothing is logged — the
normalizer contains no logging call). -/
theorem C7_counterexample :
    iter_financial_items badValPayload 2020
      = [{ orgnr := PyVal.vnone, fiscal_year := 2024, account_view := "company",
           code := "DR", value := none, currency := PyVal.vnone,
           unit := PyVal.vnone }] := rfl

/-- **C7 (amended).** Normalizer drop rules: no yielded fact has a fiscal
year below the caller-supplied minimum; but a record whose value fails
numeric coercion is *kept*, its value coerced to null — which records a view
section yields never depends on the value (pattern A keeps exactly the dict
records with a non-null code; pattern B keeps every entry), so the payload
is never aborted. -/
theorem C7_drop_rules_amended :
    (∀ (payload : PyVal) (m : Int) (row : FinRow),
      row ∈ iter_financial_items payload m → m ≤ row.fiscal_year) ∧
    (∀ (p : PyVal) (y : Int) (v : String) (as_ : List PyVal),
      (finRowsOfList p y v as_).length
        = (as_.filter (fun a =>
            a.isDict && !(pyOr (a.get "code") (a.get "accountCode")).isNone)).length) ∧
    (∀ (p yb : PyVal) (y : Int) (v : String) (fs : List (String × PyVal)),
      (finRowsOfDict p yb y v fs).length = fs.length) ∧
    toDecimal (PyVal.vstr "abc") = none := by
  refine ⟨?_, ?_, ?_, rfl⟩
  · intro payload m row h
    unfold iter_financial_items at h
    rcases List.mem_append.mp h with h' | h'
    · rcases List.mem_append.mp h' with h'' | h''
      · exact finRowsOfView_min payload m _ _ row h''
      · exact finRowsOfView_min payload m _ _ row h''
    · exact finRowsOfView_min payload m _ _ row h'
  · intro p y v as_
    exact finRowsOfList_length p y v as_
  · intro p yb y v fs
    exact finRowsOfDict_length p yb y v fs

/-- Witness for C7: the minimum-year conjunct at the counterexample payload's
single yielded row. -/
theorem C7_drop_rules_amended_witness :
    ({ orgnr := PyVal.vnone, fiscal_year := 2024, account_view := "company",
       code := "DR", value := none, currency := PyVal.vnone,
       unit := PyVal.vnone } : FinRow) ∈ iter_financial_items badValPayload 2020 ∧
    (2020 : Int) ≤ 2024 :=
  ⟨List.mem_singleton.mpr rfl,
    C7_drop_rules_amended.1 badValPayload 2020 _ (List.mem_singleton.mpr rfl)⟩

end AwcProto
